import Mathlib

/-!
Shallow embedding of the two artifacts in this repository:

1. the generated documentation-index script (top section of
   `trait.MayPanic.js`), which builds a module-to-fragments mapping named
   `implementors` and either hands it to `window.register_implementors`
   (when that callback is defined) or stores it on
   `window.pending_implementors`;
2. the `AddressSelect` React component (second section of the same file),
   which renders a labelled dropdown with one `MenuItem` per account and
   forwards selection-change events to the caller.

JS objects used as maps become association lists in insertion order,
JS `undefined` becomes `Option.none`, and a computation that can throw
becomes `Except String`.
-/

/-- An account record as consumed by `AddressSelect`: `address` is a string
identifier and `name` is an optional display string; `none` models a JS
record whose `name` field is `undefined` (absent). -/
structure Account where
  address : String
  name : Option String
deriving DecidableEq

/-- An `AccountCollection`: a JS object mapping address keys to account
records, embedded as an association list in insertion order. -/
abbrev AccountCollection : Type := List (String × Account)

/-- The JS `Object.values` applied to a present accounts object: the list of
value records in insertion order, dropping the keys. -/
def objectValues (coll : AccountCollection) : List Account :=
  coll.map Prod.snd

/-- Embeds the JS truthiness dispatch in the expression
`account.name || "Unnamed"` restricted to the possible values of a `name`
field: an absent (`undefined`) name and the empty string are falsy, so the
fallback is produced; any non-empty string is truthy and returned
unchanged. -/
def jsOrString (s : Option String) (fallback : String) : String :=
  match s with
  | none => fallback
  | some t => if t = "" then fallback else t

/-- The inner div rendered for one account (source lines 69..82): the
identicon keyed by the account address with the `inline` and `center`
flags set, and the name label. -/
structure ItemDiv where
  iconAddress : String
  iconInline : Bool
  iconCenter : Bool
  nameLabel : String
deriving DecidableEq

/-- A rendered `MenuItem` option (source lines 84..91): its React `key`,
its selection `value`, its `label` node and its child node. The source
passes the same item div for both `label` and the child. -/
structure MenuItem where
  key : String
  value : String
  label : ItemDiv
  children : ItemDiv
deriving DecidableEq

/-- Embedding of `renderAccountItem` (source lines 68..92). -/
def renderAccountItem (account : Account) : MenuItem :=
  let item : ItemDiv :=
    { iconAddress := account.address,
      iconInline := true,
      iconCenter := true,
      nameLabel := jsOrString account.name "Unnamed" }
  { key := account.address,
    value := account.address,
    label := item,
    children := item }

/-- Embedding of `renderSelectAccounts` (source lines 62..66) for a present
accounts object: one option per entry, in iteration order. -/
def renderSelectAccounts (accounts : AccountCollection) : List MenuItem :=
  (objectValues accounts).map renderAccountItem

/-- The message of the `TypeError` thrown by `Object.values(undefined)`. -/
def objectValuesTypeError : String :=
  "TypeError: Cannot convert undefined or null to object"

/-- Embedding of `renderSelectAccounts` including the case where the
`accounts` prop is omitted: `this.props.accounts` is then `undefined` and
`Object.values(undefined)` throws a `TypeError` before any option is
built. -/
def renderSelectAccountsJS (accounts : Option AccountCollection) :
    Except String (List MenuItem) :=
  match accounts with
  | none => Except.error objectValuesTypeError
  | some coll => Except.ok (renderSelectAccounts coll)

/-- The props of `AddressSelect` consumed by `render`
(source lines 46..60). -/
structure Props where
  disabled : Bool
  accounts : AccountCollection
  label : String
  hint : String
  error : String
  value : String
deriving DecidableEq

/-- The `Select` element produced by `render`: the passthrough display
props plus the rendered option children. -/
structure SelectRender where
  disabled : Bool
  label : String
  hint : String
  error : String
  value : String
  children : List MenuItem
deriving DecidableEq

/-- Embedding of `render` (source lines 46..60): every display prop is
forwarded verbatim and the children are `renderSelectAccounts`. -/
def render (p : Props) : SelectRender :=
  { disabled := p.disabled,
    label := p.label,
    hint := p.hint,
    error := p.error,
    value := p.value,
    children := renderSelectAccounts p.accounts }

/-- Embedding of the component change handler
`onChange = (event, idx, value) => this.props.onChange(event, value)`
(source lines 94..96). `cb` is the caller-supplied `onChange` prop; the
handler body is a single synchronous call of `cb` with the raw event and
the chosen value, ignoring the index. -/
def handleChange {Ev α : Type} (cb : Ev → String → α)
    (event : Ev) (idx : Nat) (value : String) : α :=
  cb event value

/-- One React PropTypes declaration: the checker name and whether
`.isRequired` is chained onto it. -/
structure PropTypeDecl where
  checker : String
  required : Bool
deriving DecidableEq

/-- Embedding of `AddressSelect.propTypes` (source lines 36..44): only
`onChange` carries `.isRequired`. -/
def propTypes : List (String × PropTypeDecl) :=
  [ ("disabled", { checker := "bool", required := false }),
    ("accounts", { checker := "object", required := false }),
    ("label", { checker := "string", required := false }),
    ("hint", { checker := "string", required := false }),
    ("error", { checker := "string", required := false }),
    ("value", { checker := "string", required := false }),
    ("onChange", { checker := "func", required := true }) ]

/-- The module-to-fragments mapping built by the documentation-index script
(source lines 1..2), with the HTML fragment strings verbatim (the
apostrophes are written with the escape x27). -/
def implementors : List (String × List String) :=
  [ ("ethcore_network",
     ["impl MayPanic for <a class=\x27struct\x27 href=\x27ethcore_network/struct.NetworkService.html\x27 title=\x27ethcore_network::NetworkService\x27>NetworkService</a>"]),
    ("ethcore",
     ["impl <a class=\x27trait\x27 href=\x27ethcore_io/panics/trait.MayPanic.html\x27 title=\x27ethcore_io::panics::MayPanic\x27>MayPanic</a> for <a class=\x27struct\x27 href=\x27ethcore/client/struct.Client.html\x27 title=\x27ethcore::client::Client\x27>Client</a>",
      "impl <a class=\x27trait\x27 href=\x27ethcore_io/panics/trait.MayPanic.html\x27 title=\x27ethcore_io::panics::MayPanic\x27>MayPanic</a> for <a class=\x27struct\x27 href=\x27ethcore/service/struct.ClientService.html\x27 title=\x27ethcore::service::ClientService\x27>ClientService</a>"]),
    ("ethsync",
     ["impl <a class=\x27trait\x27 href=\x27ethcore_io/panics/trait.MayPanic.html\x27 title=\x27ethcore_io::panics::MayPanic\x27>MayPanic</a> for <a class=\x27struct\x27 href=\x27ethcore_network/service/struct.NetworkService.html\x27 title=\x27ethcore_network::service::NetworkService\x27>NetworkService</a>"]),
    ("ethcore_signer",
     ["impl <a class=\x27trait\x27 href=\x27ethcore_io/panics/trait.MayPanic.html\x27 title=\x27ethcore_io::panics::MayPanic\x27>MayPanic</a> for <a class=\x27struct\x27 href=\x27ethcore_signer/struct.Server.html\x27 title=\x27ethcore_signer::Server\x27>Server</a>"]),
    ("parity",
     ["impl <a class=\x27trait\x27 href=\x27ethcore_io/panics/trait.MayPanic.html\x27 title=\x27ethcore_io::panics::MayPanic\x27>MayPanic</a> for <a class=\x27struct\x27 href=\x27ethcore_signer/ws_server/struct.Server.html\x27 title=\x27ethcore_signer::ws_server::Server\x27>Server</a>",
      "impl <a class=\x27trait\x27 href=\x27ethcore_io/panics/trait.MayPanic.html\x27 title=\x27ethcore_io::panics::MayPanic\x27>MayPanic</a> for <a class=\x27struct\x27 href=\x27ethcore/client/client/struct.Client.html\x27 title=\x27ethcore::client::client::Client\x27>Client</a>",
      "impl <a class=\x27trait\x27 href=\x27ethcore_io/panics/trait.MayPanic.html\x27 title=\x27ethcore_io::panics::MayPanic\x27>MayPanic</a> for <a class=\x27struct\x27 href=\x27ethcore/service/struct.ClientService.html\x27 title=\x27ethcore::service::ClientService\x27>ClientService</a>"]) ]

/-- The window state the documentation-index script interacts with:
whether `window.register_implementors` is defined, the list of calls made
to it, and `window.pending_implementors`. -/
structure DocWindow where
  hasRegister : Bool
  registerCalls : List (List (String × List String))
  pending : Option (List (String × List String))
deriving DecidableEq

/-- Embedding of the dispatch at the end of the documentation-index script
(source lines 4..8): call `register_implementors` with the mapping when it
is defined, otherwise store the mapping on `pending_implementors`. -/
def dispatchImplementors (w : DocWindow)
    (impls : List (String × List String)) : DocWindow :=
  if w.hasRegister then
    { w with registerCalls := w.registerCalls ++ [impls] }
  else
    { w with pending := some impls }

/-- A sample account used by concrete witnesses. -/
def aliceAcct : Account := { address := "0xAAA", name := some "Alice" }

/-- C1: for every change event the underlying widget reports as
`(event, index, value)`, the component handler is exactly one synchronous
call of the caller `onChange` with `(event, value)`: for any callback the
handler result is `cb event value`, the result does not depend on the
index, and a call-recording callback records exactly the single call
`(event, value)` with the value forwarded unmodified. -/
theorem change_forwards_event_value {Ev α : Type} (cb : Ev → String → α)
    (event : Ev) (i j : Nat) (value : String) :
    handleChange cb event i value = cb event value ∧
    handleChange cb event i value = handleChange cb event j value ∧
    handleChange (fun (e : Ev) (v : String) => [(e, v)]) event i value
      = [(event, value)] :=
  ⟨rfl, rfl, rfl⟩

/-- C2: for every non-empty account collection, the number of rendered
options equals the number of entries in the collection. -/
theorem rendered_options_count (coll : AccountCollection) (h : coll ≠ []) :
    (renderSelectAccounts coll).length = coll.length := by
  simp [renderSelectAccounts, objectValues]

theorem rendered_options_count_witness :
    ([("0xAAA", aliceAcct)] : AccountCollection) ≠ [] ∧
    (renderSelectAccounts [("0xAAA", aliceAcct)]).length
      = ([("0xAAA", aliceAcct)] : AccountCollection).length :=
  ⟨List.cons_ne_nil _ _,
    rendered_options_count [("0xAAA", aliceAcct)] (List.cons_ne_nil _ _)⟩

/-- C3: an account whose name is absent or the empty string renders with
the literal name label Unnamed. -/
theorem unnamed_label (a : Account)
    (h : a.name = none ∨ a.name = some "") :
    (renderAccountItem a).label.nameLabel = "Unnamed" := by
  rcases h with h | h <;> simp [renderAccountItem, jsOrString, h]

theorem unnamed_label_witness :
    (({ address := "0xBBB", name := none } : Account).name = none ∨
      ({ address := "0xBBB", name := none } : Account).name = some "") ∧
    (renderAccountItem { address := "0xBBB", name := none }).label.nameLabel
      = "Unnamed" :=
  ⟨Or.inl rfl, unnamed_label { address := "0xBBB", name := none } (Or.inl rfl)⟩

/-- C4: an account whose name is a non-empty string renders with exactly
that string as its name label, untransformed. -/
theorem named_label (a : Account) (s : String)
    (h : a.name = some s) (hs : s ≠ "") :
    (renderAccountItem a).label.nameLabel = s := by
  simp [renderAccountItem, jsOrString, h, hs]

theorem named_label_witness :
    aliceAcct.name = some "Alice" ∧ ("Alice" : String) ≠ "" ∧
    (renderAccountItem aliceAcct).label.nameLabel = "Alice" :=
  ⟨rfl, by decide, named_label aliceAcct "Alice" rfl (by decide)⟩

/-- C5: every rendered option takes both its React key and its selection
value from the account address. -/
theorem option_key_value_address (a : Account) :
    (renderAccountItem a).key = a.address ∧
    (renderAccountItem a).value = a.address :=
  ⟨rfl, rfl⟩

/-- C6: the empty accounts object renders zero options and raises no
error. -/
theorem empty_accounts_renders_nothing :
    renderSelectAccountsJS (some ([] : AccountCollection)) = Except.ok [] :=
  rfl

/-- C7: once the mapping is built, if `window.register_implementors` is
defined the script calls it exactly once with the mapping and leaves
`pending_implementors` unchanged; otherwise it assigns the mapping to
`pending_implementors` and invokes no registration callback. -/
theorem register_implementors_dispatch (w : DocWindow) :
    (w.hasRegister = true →
      dispatchImplementors w implementors
        = { w with registerCalls := w.registerCalls ++ [implementors] }) ∧
    (w.hasRegister = false →
      dispatchImplementors w implementors
        = { w with pending := some implementors }) := by
  constructor
  · intro h
    simp [dispatchImplementors, h]
  · intro h
    simp [dispatchImplementors, h]

theorem register_implementors_dispatch_witness :
    (⟨true, [], none⟩ : DocWindow).hasRegister = true ∧
    dispatchImplementors ⟨true, [], none⟩ implementors
      = ⟨true, [implementors], none⟩ :=
  ⟨rfl, (register_implementors_dispatch ⟨true, [], none⟩).1 rfl⟩

/-- C8: the disabled prop is forwarded to the underlying Select and the
rendered option children do not depend on it: the same accounts yield the
same children for every disabled value. -/
theorem disabled_passthrough (p : Props) (b1 b2 : Bool) :
    (render { p with disabled := b1 }).disabled = b1 ∧
    (render { p with disabled := b1 }).children
      = (render { p with disabled := b2 }).children :=
  ⟨rfl, rfl⟩

/-- C9: with the accounts prop omitted, rendering throws a TypeError while
enumerating the object values; any present (possibly empty) collection
renders without error; and the declared propTypes leave accounts optional
(no isRequired). -/
theorem accounts_undefined_type_error :
    renderSelectAccountsJS none = Except.error objectValuesTypeError ∧
    (∀ coll : AccountCollection,
      renderSelectAccountsJS (some coll)
        = Except.ok (renderSelectAccounts coll)) ∧
    (propTypes.lookup "accounts").map PropTypeDecl.required = some false :=
  ⟨rfl, fun _ => rfl, rfl⟩

/-- C10: option rendering depends only on the value records of the
mapping, never on its keys: every option takes key and value from its
record address, collections with the same value-record list render
identically, and collections whose value records are a permutation of one
another render permuted (set-equal) option lists. -/
theorem options_ignore_keys (c1 c2 : AccountCollection) :
    (∀ e ∈ c1, (renderAccountItem e.2).key = e.2.address ∧
        (renderAccountItem e.2).value = e.2.address) ∧
    (objectValues c1 = objectValues c2 →
      renderSelectAccounts c1 = renderSelectAccounts c2) ∧
    ((objectValues c1).Perm (objectValues c2) →
      (renderSelectAccounts c1).Perm (renderSelectAccounts c2)) := by
  refine ⟨fun e _ => ⟨rfl, rfl⟩, fun h => ?_, fun h => h.map _⟩
  simp [renderSelectAccounts, h]

theorem options_ignore_keys_witness :
    objectValues [("someKey", aliceAcct)]
      = objectValues [("otherKey", aliceAcct)] ∧
    renderSelectAccounts [("someKey", aliceAcct)]
      = renderSelectAccounts [("otherKey", aliceAcct)] :=
  ⟨rfl,
    (options_ignore_keys [("someKey", aliceAcct)] [("otherKey", aliceAcct)]).2.1 rfl⟩
